import Mathlib

/-!
Shallow embedding of the post/comment/favorites domain of the
`next-firebase-auth` blog backend (Python, FastAPI), together with proofs
about its specification.

Conventions of the embedding:
* timestamps are natural numbers (`Time`); each operation that calls
  `datetime.now()` receives the current time as an explicit argument;
* Python dictionaries keyed by id are lists in insertion order
  (Python 3.7+ dicts iterate in insertion order), and the upsert
  `d[k] = v` is replace-in-place-or-append;
* Python's stable `list.sort(key=...)` is `List.insertionSort` with the
  corresponding total preorder (stable, sorted, a permutation — the same
  characterisation Python guarantees);
* raising an exception is returning `Except.error`; where a method mutates
  `self` before raising (as `BlogPost.update_content` does), the error
  carries the state of the entity at the moment of the raise;
* `str.strip()` is `pyStrip` (drop whitespace from both ends of the
  character list), and Python's falsiness test on a stripped string is a
  test against the empty string.
-/

/-- Python's `str.strip()`: remove leading and trailing whitespace. -/
def pyStrip (s : String) : String :=
  ⟨((s.data.dropWhile Char.isWhitespace).reverse.dropWhile Char.isWhitespace).reverse⟩

/-- Timestamps, abstracting `datetime` values (ordered, compared with `<=`). -/
abbrev Time := Nat

/-- `PostStatus` enum from `app/domain/entities.py`. -/
inductive PostStatus where
  | draft
  | published
deriving DecidableEq, Repr

/-- `BlogPost` dataclass fields (`app/domain/entities.py`). -/
structure BlogPost where
  id : String
  title : String
  content : String
  excerpt : String
  author : String
  published_at : Option Time
  status : PostStatus
  created_at : Time
  updated_at : Time
deriving DecidableEq, Repr

/-- `Comment` dataclass fields (`app/domain/entities/comment.py`);
`created_at` is always set by `__post_init__`, so it is total here. -/
structure Comment where
  id : String
  content : String
  user_id : String
  post_id : String
  created_at : Time
deriving DecidableEq, Repr

/-- Modelled from the spec: the `BlogPost` factory lives in
`app/domain/entities/blog_post.py`, which the `entities` package's
`__init__.py` imports but which is absent from the repository snapshot
(the sibling `entities.py` module is shadowed by the package and its
draft-only `create_new` is the `status = "draft"` case of this one).
Per the spec, the factory validates that title/content/excerpt/author are
non-blank after trimming and stores the trimmed values, creates the post
as Draft by default or as Published when the request says so at creation
(`publishedAt` present exactly when Published), and sets
`createdAt = updatedAt` to the current time. The fresh uuid is received
as the `id` argument. -/
def BlogPost.create_new (title content excerpt author status id : String)
    (now : Time) : Except String BlogPost :=
  if (pyStrip title) = "" then .error "Title cannot be empty"
  else if (pyStrip content) = "" then .error "Content cannot be empty"
  else if (pyStrip excerpt) = "" then .error "Excerpt cannot be empty"
  else if (pyStrip author) = "" then .error "Author cannot be empty"
  else .ok
    { id := id
      title := (pyStrip title)
      content := (pyStrip content)
      excerpt := (pyStrip excerpt)
      author := (pyStrip author)
      published_at := if status = "published" then some now else none
      status := if status = "published" then .published else .draft
      created_at := now
      updated_at := now }

/-- `BlogPost.publish` (`app/domain/entities.py`, lines 54-61). -/
def BlogPost.publish (p : BlogPost) (now : Time) : Except String BlogPost :=
  if p.status = .published then .error "Post is already published"
  else .ok { p with status := .published, published_at := some now, updated_at := now }

/-- `BlogPost.unpublish` (`app/domain/entities.py`, lines 63-70). -/
def BlogPost.unpublish (p : BlogPost) (now : Time) : Except String BlogPost :=
  if p.status = .draft then .error "Post is already a draft"
  else .ok { p with status := .draft, published_at := none, updated_at := now }

/-- `BlogPost.update_content` (`app/domain/entities.py`, lines 72-89).
The three optional fields are validated and assigned in the order
title, content, excerpt, each assignment happening right after its own
check; a `ValueError` raised mid-way leaves the earlier assignments in
place, so the error carries the entity state at the moment of the raise. -/
def BlogPost.update_content (p : BlogPost)
    (title content excerpt : Option String) (now : Time) :
    Except (String × BlogPost) BlogPost :=
  match
    (match title with
     | none => .ok p
     | some t =>
       if (pyStrip t) = "" then .error ("Title cannot be empty", p)
       else .ok { p with title := (pyStrip t) } : Except (String × BlogPost) BlogPost)
  with
  | .error e => .error e
  | .ok p1 =>
    match
      (match content with
       | none => .ok p1
       | some c =>
         if (pyStrip c) = "" then .error ("Content cannot be empty", p1)
         else .ok { p1 with content := (pyStrip c) } : Except (String × BlogPost) BlogPost)
    with
    | .error e => .error e
    | .ok p2 =>
      match
        (match excerpt with
         | none => .ok p2
         | some e =>
           if (pyStrip e) = "" then .error ("Excerpt cannot be empty", p2)
           else .ok { p2 with excerpt := (pyStrip e) } : Except (String × BlogPost) BlogPost)
      with
      | .error e => .error e
      | .ok p3 => .ok { p3 with updated_at := now }

/-- `Comment.create_new` plus `__post_init__` validation
(`app/domain/entities/comment.py`): non-blank content/user_id/post_id,
trimmed storage, `created_at` set to the current time. The fresh uuid is
received as the `id` argument. -/
def Comment.create_new (content user_id post_id id : String) (now : Time) :
    Except String Comment :=
  if (pyStrip content) = "" then .error "Comment content cannot be empty"
  else if (pyStrip user_id) = "" then .error "User ID cannot be empty"
  else if (pyStrip post_id) = "" then .error "Post ID cannot be empty"
  else .ok
    { id := id
      content := (pyStrip content)
      user_id := (pyStrip user_id)
      post_id := (pyStrip post_id)
      created_at := now }

/-- Sort key used by `InMemoryPostRepository.find_published`
(`posts_repository.py`, line 69): `p.published_at or datetime.min`. -/
def pubKey (p : BlogPost) : Time :=
  p.published_at.getD 0

/-- Descending-`published_at` order used by `find_published`
(`sort(key=..., reverse=True)`). -/
def pubGE (a b : BlogPost) : Prop :=
  pubKey b ≤ pubKey a

instance : DecidableRel pubGE :=
  fun a b => inferInstanceAs (Decidable (pubKey b ≤ pubKey a))

instance : IsTotal BlogPost pubGE :=
  ⟨fun a b => Nat.le_total (pubKey b) (pubKey a)⟩

instance : IsTrans BlogPost pubGE :=
  ⟨fun _ _ _ h1 h2 => Nat.le_trans h2 h1⟩

/-- Ascending-`created_at` order used by
`InMemoryCommentRepository.find_by_post_id` (`comments_repository.py`,
line 35): `sort(key=lambda c: c.created_at)`. -/
def commLE (a b : Comment) : Prop :=
  a.created_at ≤ b.created_at

instance : DecidableRel commLE :=
  fun a b => inferInstanceAs (Decidable (a.created_at ≤ b.created_at))

instance : IsTotal Comment commLE :=
  ⟨fun a b => Nat.le_total a.created_at b.created_at⟩

instance : IsTrans Comment commLE :=
  ⟨fun _ _ _ h1 h2 => Nat.le_trans h1 h2⟩

/-- The in-memory post store: the values of `self._posts` in insertion
order (Python dicts iterate in insertion order). -/
abbrev PostStore := List BlogPost

/-- The dict upsert `self._posts[post.id] = post`: replace in place when
the key exists, append otherwise. -/
def upsertPost (store : PostStore) (p : BlogPost) : PostStore :=
  if store.any (fun q => q.id == p.id) then
    store.map (fun q => if q.id == p.id then p else q)
  else store ++ [p]

/-- `InMemoryPostRepository.save` (`posts_repository.py`, lines 22-27):
refreshes `updated_at`, then upserts by id. -/
def InMemoryPostRepository.save (store : PostStore) (p : BlogPost) (now : Time) :
    BlogPost × PostStore :=
  let p' := { p with updated_at := now }
  (p', upsertPost store p')

/-- `InMemoryPostRepository.find_published` (`posts_repository.py`, lines
59-74): filter status=published, optionally filter by author (Python
truthiness: `None` and `""` skip the filter), stable-sort descending by
`published_at or datetime.min`, then slice `[(page-1)*limit : +limit]`. -/
def find_published (store : PostStore) (page limit : Int) (author : Option String) :
    List BlogPost :=
  let ps := store.filter (fun p => p.status == PostStatus.published)
  let ps := match author with
    | none => ps
    | some a => if a = "" then ps else ps.filter (fun p => p.author == a)
  let sorted := List.insertionSort pubGE ps
  (sorted.drop ((page - 1) * limit).toNat).take limit.toNat

/-- `PostService.get_published_posts` (`domain/services/post_service.py`,
lines 126-137): clamp `page` to ≥ 1 and `limit` to [1,50] (default 10),
then delegate to the repository. -/
def get_published_posts (store : PostStore) (page limit : Int) (author : Option String) :
    List BlogPost :=
  find_published store (if page < 1 then 1 else page)
    (if limit < 1 ∨ limit > 50 then 10 else limit) author

/-- `PostService.create_post` (`domain/services/post_service.py`, lines
52-62) against the in-memory repository: factory, then save. The one
`now` stands for the (logically single) instant of the request. -/
def PostService.create_post (store : PostStore)
    (title content excerpt author status id : String) (now : Time) :
    Except String (BlogPost × PostStore) :=
  (BlogPost.create_new title content excerpt author status id now).map
    (fun p => InMemoryPostRepository.save store p now)

/-- Response shape of the route `get_blog_posts`: the posts plus the
`pagination{page, limit, total, hasNext}` block. -/
structure PageResult where
  posts : List BlogPost
  page : Int
  limit : Int
  total : Int
  hasNext : Bool
deriving DecidableEq, Repr

/-- `PostApplicationService.get_posts` (`posts_service.py`, lines 91-132):
normalise an invalid status to "published"; for the published path fetch
via the domain service (which clamps), otherwise return no posts; `total`
is the heuristic `len(posts) if len(posts) < limit else limit * page`
computed from the RAW `page` and `limit`; the pagination block echoes the
raw `page` and `limit`. -/
def get_posts (store : PostStore) (page limit : Int) (status : String)
    (author : Option String) : List BlogPost × Int × Int × Int :=
  let status := if status = "draft" ∨ status = "published" then status else "published"
  let posts := if status = "published" then get_published_posts store page limit author else []
  let total : Int :=
    if status = "published" then
      if (posts.length : Int) < limit then (posts.length : Int) else limit * page
    else 0
  (posts, page, limit, total)

/-- Route `get_blog_posts` (`api/routes/posts.py`, lines 131-182):
`page = page or 1`, `limit = limit or 10`, `status = status or
"published"`, call `get_posts`, then `has_next = page * limit < total`
from the returned pagination block. -/
def get_blog_posts (store : PostStore) (page limit : Int)
    (status author : Option String) : PageResult :=
  let page := if page = 0 then 1 else page
  let limit := if limit = 0 then 10 else limit
  let status := match status with
    | none => "published"
    | some s => if s = "" then "published" else s
  match get_posts store page limit status author with
  | (posts, pg, lim, total) =>
    { posts := posts, page := pg, limit := lim, total := total,
      hasNext := decide (pg * lim < total) }

/-- The in-memory comment store: the values of `self._comments` in
insertion order. -/
abbrev CommentStore := List Comment

/-- The dict upsert `self._comments[comment.id] = comment`. -/
def upsertComment (store : CommentStore) (c : Comment) : CommentStore :=
  if store.any (fun d => d.id == c.id) then
    store.map (fun d => if d.id == c.id then c else d)
  else store ++ [c]

/-- `InMemoryCommentRepository.find_by_post_id` (`comments_repository.py`,
lines 28-36): filter by `post_id`, stable-sort ascending by `created_at`,
take the first `limit`. The domain service clamps `limit` into [1,100]
before calling, so it is a natural number here. -/
def find_by_post_id (store : CommentStore) (post_id : String) (limit : Nat) :
    List Comment :=
  (List.insertionSort commLE (store.filter (fun c => c.post_id == post_id))).take limit

/-- Domain-layer errors raised by `CommentService.create_comment`:
`PostNotFoundError` from the existence check, or the `ValueError` raised
by the `Comment` factory validation. -/
inductive DomainErr where
  | postNotFound (msg : String)
  | valueError (msg : String)
deriving DecidableEq, Repr

/-- `CommentService.create_comment` (`domain/services/comment_service.py`,
lines 37-48): check `exists_by_id(post_id)` first and raise
`PostNotFoundError` if absent; otherwise construct via the factory and
save. The pair threads the comment store so that the effect (or absence
of effect) on persistence is explicit. -/
def CommentService.create_comment (exists_by_id : String → Bool)
    (store : CommentStore) (content user_id post_id id : String) (now : Time) :
    Except DomainErr Comment × CommentStore :=
  if !(exists_by_id post_id) then
    (.error (.postNotFound ("Post with ID " ++ post_id ++ " not found")), store)
  else
    match Comment.create_new content user_id post_id id now with
    | .error m => (.error (.valueError m), store)
    | .ok c => (.ok c, upsertComment store c)

/-- Application-level error taxonomy (`application/exceptions.py`). -/
inductive AppErr where
  | validationError (msg : String)
  | notFoundError (msg : String)
  | forbiddenError (msg : String)
  | applicationError (msg : String)
deriving DecidableEq, Repr

/-- `CommentApplicationService.create_comment` (`comments_service.py`,
lines 32-51): delegate to the domain service and translate
`PostNotFoundError` to `NotFoundError` and `ValueError` /
`CommentValidationError` to `ValidationError`. -/
def CommentApplicationService.create_comment (exists_by_id : String → Bool)
    (store : CommentStore) (post_id content user_id id : String) (now : Time) :
    Except AppErr Comment × CommentStore :=
  match CommentService.create_comment exists_by_id store content user_id post_id id now with
  | (.error (.postNotFound _), s) =>
    (.error (.notFoundError ("Post with ID " ++ post_id ++ " not found")), s)
  | (.error (.valueError m), s) => (.error (.validationError m), s)
  | (.ok c, s) => (.ok c, s)

/-- `page = max(1, page or 1)` in `get_user_favorites`
(`favorites_service.py`, line 36). -/
def favClampPage (page : Int) : Int :=
  max 1 (if page = 0 then 1 else page)

/-- `limit = max(1, min(50, limit or 10))` in `get_user_favorites`
(`favorites_service.py`, line 37). -/
def favClampLimit (limit : Int) : Int :=
  max 1 (min 50 (if limit = 0 then 10 else limit))

/-- `FavoriteApplicationService.get_user_favorites`
(`favorites_service.py`, lines 34-59): clamp page and limit, load the
full favorited-id list, reverse it, take the `[(page-1)*limit : +limit]`
window OF THE ID LIST, then resolve each id in the window through
`post_repository.find_by_id` and keep only the posts that exist.
Returns `(posts, page, limit, total)` where `total = len(ids)`. -/
def get_user_favorites (find : String → Option BlogPost) (ids : List String)
    (page limit : Int) : List BlogPost × Int × Int × Nat :=
  let p := favClampPage page
  let l := favClampLimit limit
  let ids_sorted := ids.reverse
  let page_ids := (ids_sorted.drop ((p - 1) * l).toNat).take l.toNat
  (page_ids.filterMap find, p, l, ids.length)

/-- The claim's reading of `getUserFavorites`: resolve the whole reversed
id list to posts, drop the ids whose post no longer exists, and only then
take the `(page-1)*limit .. +limit` window of the resolved list. Stated
from the spec's words, to be compared with `get_user_favorites`. -/
def getUserFavoritesResolveFirst (find : String → Option BlogPost)
    (ids : List String) (page limit : Int) : List BlogPost :=
  let p := favClampPage page
  let l := favClampLimit limit
  let resolved := ids.reverse.filterMap find
  (resolved.drop ((p - 1) * l).toNat).take l.toNat

/-- The amended reading: the window is taken over the reversed id list
first, and only the ids inside the window are resolved (missing ones
dropped, so a page can come back short). Formulated through a
`take`-then-`drop` slice to be compared with the source's
`drop`-then-`take`. -/
def getUserFavoritesPageFirst (find : String → Option BlogPost)
    (ids : List String) (page limit : Int) : List BlogPost :=
  let p := favClampPage page
  let l := favClampLimit limit
  ((ids.reverse.take (p * l).toNat).drop ((p - 1) * l).toNat).filterMap find

/-- Outcome of one `post_to_connection` delivery attempt in
`broadcast_to_all`: success, the permanently-gone error
(`GoneException`), or any other (transient) error. -/
inductive Delivery where
  | ok
  | gone
  | err
deriving DecidableEq, Repr

/-- One iteration of the `for connection_id in self.connections` loop of
`broadcast_to_all` (`apigateway_websocket_service.py`, lines 61-72): the
accumulator is `(disconnected_connections, attempted)`. A `GoneException`
adds the connection to `disconnected_connections`; so does ANY other
exception (`except Exception` also adds it, line 72). The attempt list
records that a delivery attempt was made to the connection. -/
def broadcastStep (deliver : String → Delivery)
    (acc : List String × List String) (c : String) : List String × List String :=
  match deliver c with
  | .ok => (acc.1, acc.2 ++ [c])
  | .gone => (acc.1 ++ [c], acc.2 ++ [c])
  | .err => (acc.1 ++ [c], acc.2 ++ [c])

/-- `ApiGatewayWebSocketService.broadcast_to_all`
(`apigateway_websocket_service.py`, lines 51-77): if there are no
connections, return; otherwise attempt delivery to every connection,
collect the failed ones in `disconnected_connections`, and finally
`self.connections -= disconnected_connections`. Returns the remaining
membership set and the list of connections a delivery attempt was made
to. -/
def broadcast_to_all (deliver : String → Delivery) (conns : List String) :
    List String × List String :=
  if conns.isEmpty then (conns, [])
  else
    let r := conns.foldl (broadcastStep deliver) ([], [])
    (conns.filter (fun c => !(r.1.contains c)), r.2)

/-- The blog posts reachable through the factory and the
`publish`/`unpublish` operations. -/
inductive ReachablePost : BlogPost → Prop where
  | factory {t c e a st id : String} {now : Time} {p : BlogPost} :
      BlogPost.create_new t c e a st id now = .ok p → ReachablePost p
  | published {p q : BlogPost} {now : Time} :
      ReachablePost p → p.publish now = .ok q → ReachablePost q
  | unpublished {p q : BlogPost} {now : Time} :
      ReachablePost p → p.unpublish now = .ok q → ReachablePost q

/-- A concrete post used as witness data. -/
def favPostA : BlogPost :=
  ⟨"a", "T", "C", "E", "u", none, .draft, 0, 0⟩

/-- A post-repository lookup that knows only the post `"a"`: the id `"b"`
is a favorite whose post no longer exists. -/
def favFind : String → Option BlogPost :=
  fun s => if s = "a" then some favPostA else none

/-- A published post with `published_at = i` and id `toString i`. -/
def pubPost (i : Nat) : BlogPost :=
  ⟨toString i, "T", "C", "E", "u", some i, .published, 0, 0⟩

/-- A store holding exactly four published posts. -/
def fourPublished : PostStore :=
  [pubPost 1, pubPost 2, pubPost 3, pubPost 4]

/-- A store holding exactly five published posts with distinct
`published_at` values, in scrambled insertion order. -/
def fivePublished : PostStore :=
  [pubPost 3, pubPost 1, pubPost 5, pubPost 2, pubPost 4]

/-- A comment on post `"p"` created at time `i`. -/
def commentAt (i : Nat) : Comment :=
  ⟨toString i, "c", "u", "p", i⟩

/-- A comment store with three comments on post `"p"` (created at 3, 1, 2)
and one comment on another post. -/
def commentsDemo : CommentStore :=
  [commentAt 3, commentAt 1, commentAt 2, ⟨"x", "c", "u", "q", 0⟩]

/-- A draft post used as witness data for update/publish scenarios. -/
def demoPost : BlogPost :=
  ⟨"i", "Old", "C", "E", "u", none, .draft, 0, 0⟩

/-- A delivery outcome where exactly connection `"c2"` is gone and every
other delivery succeeds. -/
def goneDeliver : String → Delivery :=
  fun c => if c = "c2" then .gone else .ok

theorem broadcast_foldl (deliver : String → Delivery) (conns : List String)
    (d a : List String) :
    conns.foldl (broadcastStep deliver) (d, a) =
      (d ++ conns.filter (fun c => !(deliver c == Delivery.ok)), a ++ conns) := by
  induction conns generalizing d a with
  | nil => simp
  | cons c cs ih =>
    simp only [List.foldl_cons, List.filter_cons]
    cases h : deliver c with
    | ok => simp [broadcastStep, h, ih]
    | gone => simp [broadcastStep, h, ih]
    | err => simp [broadcastStep, h, ih]

theorem broadcast_remaining (deliver : String → Delivery) (conns : List String) :
    (broadcast_to_all deliver conns).1 =
      conns.filter (fun c => deliver c == Delivery.ok) := by
  cases conns with
  | nil => rfl
  | cons c0 cs =>
    simp only [broadcast_to_all, List.isEmpty_cons, Bool.false_eq_true, if_false,
      broadcast_foldl, List.nil_append]
    refine List.filter_congr ?_
    intro c hcmem
    cases hdc : deliver c with
    | ok =>
      simp [List.contains, List.elem_eq_mem, List.mem_filter, hdc]
    | gone =>
      simp [List.contains, List.elem_eq_mem, List.mem_filter, hdc, hcmem]
    | err =>
      simp [List.contains, List.elem_eq_mem, List.mem_filter, hdc, hcmem]

/-- C1 (counterexample): the claim says a connection whose delivery fails
with a transient (non-gone) error is still a member of the connection set
after `broadcast_to_all`. Concretely, with the single connection `"c1"`
failing with a transient error (`err`, which is not the gone error), the
connection set afterwards is empty — `"c1"` was evicted. -/
theorem broadcast_transient_error_eviction_cex :
    (broadcast_to_all (fun _ => Delivery.err) ["c1"]).1 = []
    ∧ "c1" ∉ (broadcast_to_all (fun _ => Delivery.err) ["c1"]).1
    ∧ Delivery.err ≠ Delivery.gone := by
  decide

/-- C1 (amended): after `broadcast_to_all`, the remaining membership set
consists of exactly the connections whose delivery attempt succeeded:
every connection whose delivery failed — whether with the
permanently-gone error or with any other (transient) error — is removed
from the connection set. -/
theorem broadcast_evicts_on_any_failure (deliver : String → Delivery)
    (conns : List String) :
    (broadcast_to_all deliver conns).1 =
      conns.filter (fun c => deliver c == Delivery.ok) :=
  broadcast_remaining deliver conns

/-- C3 (confirmed): when exactly one connection `g` of the membership set
fails with the permanently-gone error and every other delivery succeeds,
after `broadcast_to_all` the connection `g` is removed, all the other
connections remain members (N-1 of N remain), and a delivery attempt was
made to every connection — the one failure neither blocks nor fails the
others. -/
theorem broadcast_one_gone (deliver : String → Delivery) (conns : List String)
    (g : String) (hg : g ∈ conns) (hgone : deliver g = Delivery.gone)
    (hok : ∀ c ∈ conns, c ≠ g → deliver c = Delivery.ok)
    (hnd : conns.Nodup) :
    g ∉ (broadcast_to_all deliver conns).1
    ∧ (∀ c ∈ conns, c ≠ g → c ∈ (broadcast_to_all deliver conns).1)
    ∧ (broadcast_to_all deliver conns).1.length = conns.length - 1
    ∧ (broadcast_to_all deliver conns).2 = conns := by
  have hrem : (broadcast_to_all deliver conns).1 =
      conns.filter (fun c => deliver c == Delivery.ok) :=
    broadcast_remaining deliver conns
  have hfe : conns.filter (fun c => deliver c == Delivery.ok) =
      conns.filter (fun c => !(c == g)) := by
    refine List.filter_congr ?_
    intro c hcmem
    by_cases hcg : c = g
    · subst hcg
      simp [hgone]
    · simp [hok c hcmem hcg, hcg]
  refine ⟨?_, ?_, ?_, ?_⟩
  · rw [hrem, hfe]
    intro hmem
    have := (List.mem_filter.mp hmem).2
    simp at this
  · intro c hc hcg
    rw [hrem, hfe]
    exact List.mem_filter.mpr ⟨hc, by simp [hcg]⟩
  · rw [hrem, hfe]
    have herase : conns.filter (fun c => !(c == g)) = conns.erase g := by
      rw [hnd.erase_eq_filter]
      refine List.filter_congr ?_
      intro c _
      simp [bne]
    rw [herase, List.length_erase_of_mem hg]
  · have hne : conns ≠ [] := List.ne_nil_of_mem hg
    cases conns with
    | nil => exact absurd rfl hne
    | cons c0 cs =>
      simp only [broadcast_to_all, List.isEmpty_cons, Bool.false_eq_true, if_false,
        broadcast_foldl, List.nil_append]

/-- Witness for C3: three live connections of which `"c2"` is gone. -/
theorem broadcast_one_gone_witness :
    "c2" ∉ (broadcast_to_all goneDeliver ["c1", "c2", "c3"]).1
    ∧ (∀ c ∈ ["c1", "c2", "c3"], c ≠ "c2" →
        c ∈ (broadcast_to_all goneDeliver ["c1", "c2", "c3"]).1)
    ∧ (broadcast_to_all goneDeliver ["c1", "c2", "c3"]).1.length =
        (["c1", "c2", "c3"] : List String).length - 1
    ∧ (broadcast_to_all goneDeliver ["c1", "c2", "c3"]).2 = ["c1", "c2", "c3"] :=
  broadcast_one_gone goneDeliver ["c1", "c2", "c3"] "c2" (by decide) (by decide)
    (by decide) (by decide)

/-- C2 (confirmed): for all inputs whose trimmed values are non-blank,
`PostService.create_post` with the default `"draft"` status returns a
post with status Draft, `publishedAt` absent and `createdAt = updatedAt`;
and the factory path also creates the post as Published when the request
says so at creation. -/
theorem create_post_statuses (store : PostStore) (t c e a id : String) (now : Time)
    (ht : pyStrip t ≠ "") (hc : pyStrip c ≠ "") (he : pyStrip e ≠ "")
    (ha : pyStrip a ≠ "") :
    (∃ p s2, PostService.create_post store t c e a "draft" id now = .ok (p, s2)
      ∧ p.status = PostStatus.draft ∧ p.published_at = none
      ∧ p.created_at = p.updated_at)
    ∧ (∃ p s2, PostService.create_post store t c e a "published" id now = .ok (p, s2)
      ∧ p.status = PostStatus.published ∧ p.published_at = some now
      ∧ p.created_at = p.updated_at) := by
  constructor
  · simp only [PostService.create_post, BlogPost.create_new, if_neg ht, if_neg hc,
      if_neg he, if_neg ha, Except.map, InMemoryPostRepository.save]
    exact ⟨_, _, rfl, by simp, by simp, rfl⟩
  · simp only [PostService.create_post, BlogPost.create_new, if_neg ht, if_neg hc,
      if_neg he, if_neg ha, Except.map, InMemoryPostRepository.save]
    exact ⟨_, _, rfl, by simp, by simp, rfl⟩

/-- Witness for C2 at concrete non-blank inputs. -/
theorem create_post_statuses_witness :
    (∃ p s2, PostService.create_post [] "T" "C" "E" "u" "draft" "i" 5 = .ok (p, s2)
      ∧ p.status = PostStatus.draft ∧ p.published_at = none
      ∧ p.created_at = p.updated_at)
    ∧ (∃ p s2, PostService.create_post [] "T" "C" "E" "u" "published" "i" 5 = .ok (p, s2)
      ∧ p.status = PostStatus.published ∧ p.published_at = some 5
      ∧ p.created_at = p.updated_at) :=
  create_post_statuses [] "T" "C" "E" "u" "i" 5 (by decide) (by decide) (by decide)
    (by decide)

/-- C6 (confirmed): `publish` on a Draft sets status Published and
`publishedAt` to the current time; a second `publish` fails; `unpublish`
on a Published post restores Draft and clears `publishedAt`; `unpublish`
on a Draft fails; and every post reachable via the factory and the
publish/unpublish operations satisfies `publishedAt` present iff
status = Published. -/
theorem publish_unpublish_lifecycle :
    (∀ (p : BlogPost) (now : Time), p.status = PostStatus.draft →
      p.publish now = .ok { p with
        status := PostStatus.published
        published_at := some now
        updated_at := now })
    ∧ (∀ (p q : BlogPost) (now now2 : Time), p.publish now = .ok q →
      q.publish now2 = .error "Post is already published")
    ∧ (∀ (p : BlogPost) (now : Time), p.status = PostStatus.published →
      p.unpublish now = .ok { p with
        status := PostStatus.draft
        published_at := none
        updated_at := now })
    ∧ (∀ (p : BlogPost) (now : Time), p.status = PostStatus.draft →
      p.unpublish now = .error "Post is already a draft")
    ∧ (∀ p, ReachablePost p →
        (p.published_at.isSome ↔ p.status = PostStatus.published)) := by
  refine ⟨?_, ?_, ?_, ?_, ?_⟩
  · intro p now h
    simp [BlogPost.publish, h]
  · intro p q now now2 h
    by_cases hp : p.status = PostStatus.published
    · simp [BlogPost.publish, hp] at h
    · simp only [BlogPost.publish, if_neg hp] at h
      injection h with h
      subst h
      simp [BlogPost.publish]
  · intro p now h
    simp [BlogPost.unpublish, h]
  · intro p now h
    simp [BlogPost.unpublish, h]
  · intro p hreach
    induction hreach with
    | @factory t c e a st id now p h =>
      simp only [BlogPost.create_new] at h
      split at h
      · exact Except.noConfusion h
      split at h
      · exact Except.noConfusion h
      split at h
      · exact Except.noConfusion h
      split at h
      · exact Except.noConfusion h
      injection h with h
      subst h
      by_cases hst : st = "published"
      · simp [hst]
      · simp [hst]
    | @published p q now hr hstep ih =>
      by_cases hp : p.status = PostStatus.published
      · simp [BlogPost.publish, hp] at hstep
      · simp only [BlogPost.publish, if_neg hp] at hstep
        injection hstep with hstep
        subst hstep
        simp
    | @unpublished p q now hr hstep ih =>
      by_cases hp : p.status = PostStatus.draft
      · simp [BlogPost.unpublish, hp] at hstep
      · simp only [BlogPost.unpublish, if_neg hp] at hstep
        injection hstep with hstep
        subst hstep
        simp

/-- Witness for C6 on a concrete draft post. -/
theorem publish_unpublish_lifecycle_witness :
    demoPost.publish 5 = .ok { demoPost with
      status := PostStatus.published
      published_at := some 5
      updated_at := 5 }
    ∧ ({ demoPost with
      status := PostStatus.published
      published_at := some 5
      updated_at := 5 } : BlogPost).publish 7 = .error "Post is already published"
    ∧ ({ demoPost with
      status := PostStatus.published
      published_at := some 5
      updated_at := 5 } : BlogPost).unpublish 8 = .ok { demoPost with
        status := PostStatus.draft
        published_at := none
        updated_at := 8 }
    ∧ demoPost.unpublish 5 = .error "Post is already a draft"
    ∧ (demoPost.published_at.isSome ↔ demoPost.status = PostStatus.published) :=
  ⟨publish_unpublish_lifecycle.1 demoPost 5 rfl,
   publish_unpublish_lifecycle.2.1 demoPost _ 5 7
     (publish_unpublish_lifecycle.1 demoPost 5 rfl),
   publish_unpublish_lifecycle.2.2.1 _ 8 rfl,
   publish_unpublish_lifecycle.2.2.2.1 demoPost 5 rfl,
   publish_unpublish_lifecycle.2.2.2.2 demoPost
     (@ReachablePost.factory "Old" "C" "E" "u" "draft" "i" 0 demoPost rfl)⟩

/-- C7 (confirmed): creating a comment on a post id that does not exist
fails with the not-found error kind (PostNotFound at the domain layer,
translated to NotFoundError at the application boundary) and leaves the
comment repository unchanged. -/
theorem create_comment_missing_post (exists_by_id : String → Bool)
    (store : CommentStore) (content user_id post_id id : String) (now : Time)
    (h : exists_by_id post_id = false) :
    CommentApplicationService.create_comment exists_by_id store post_id content user_id id now =
      (.error (.notFoundError ("Post with ID " ++ post_id ++ " not found")), store) := by
  simp [CommentApplicationService.create_comment, CommentService.create_comment, h]

/-- Witness for C7: no post exists, so creating a comment on `"p"` fails
with NotFoundError and the comment store is untouched. -/
theorem create_comment_missing_post_witness :
    CommentApplicationService.create_comment (fun _ => false) commentsDemo "p" "hi" "u" "x9" 7 =
      (.error (.notFoundError ("Post with ID " ++ "p" ++ " not found")), commentsDemo) :=
  create_comment_missing_post (fun _ => false) commentsDemo "hi" "u" "p" "x9" 7 rfl

/-- C10 (confirmed): `BlogPost.update_content` validates and assigns in
the fixed order title, content, excerpt, assigning each trimmed value
right after its own check; with a valid new title and a whitespace-only
content it raises the content validation error AFTER the title has
already been replaced with the new trimmed value — the update is not
atomic on validation failure. -/
theorem update_content_nonatomic (p : BlogPost) (t ct : String) (now : Time)
    (ht : pyStrip t ≠ "") (hc : pyStrip ct = "") :
    p.update_content (some t) (some ct) none now =
      .error ("Content cannot be empty", { p with title := pyStrip t }) := by
  simp [BlogPost.update_content, if_neg ht, hc]

/-- Witness for C10: on a post titled "Old", updating with title "New"
and blank content raises, and the entity's title at the moment of the
raise is already "New". -/
theorem update_content_nonatomic_witness :
    demoPost.update_content (some "New") (some "   ") none 9 =
      .error ("Content cannot be empty", { demoPost with title := pyStrip "New" })
    ∧ pyStrip "New" ≠ demoPost.title :=
  ⟨update_content_nonatomic demoPost "New" "   " 9 (by decide) (by decide), by decide⟩

/-- C4 (counterexample): the claim says the page window is taken over the
resolved, existing-post list, after dropping missing ids. Concretely, a
user favorited `["a", "b"]` where post `"b"` no longer exists: with
`page=1, limit=1` the code returns no posts (the window `["b"]` of the id
list resolves to nothing), while the claim's resolve-first reading
returns the post `"a"`. -/
theorem favorites_page_window_cex :
    (get_user_favorites favFind ["a", "b"] 1 1).1 = []
    ∧ getUserFavoritesResolveFirst favFind ["a", "b"] 1 1 = [favPostA]
    ∧ (get_user_favorites favFind ["a", "b"] 1 1).1 ≠
        getUserFavoritesResolveFirst favFind ["a", "b"] 1 1 := by
  decide

/-- C4 (amended): `getUserFavorites` reverses the favorited-id list, takes
the `(page-1)*limit .. +limit` window OF THE ID LIST first, and only then
resolves the ids in the window, dropping ids whose post no longer exists
(so a page can come back short); the reported total is the number of
favorite ids. -/
theorem favorites_page_first (find : String → Option BlogPost) (ids : List String)
    (page limit : Int) :
    (get_user_favorites find ids page limit).1 =
      getUserFavoritesPageFirst find ids page limit
    ∧ (get_user_favorites find ids page limit).2.2.2 = ids.length := by
  constructor
  · have hp : (1:Int) ≤ favClampPage page := le_max_left _ _
    have hl : (1:Int) ≤ favClampLimit limit := le_max_left _ _
    have hsum : (favClampPage page * favClampLimit limit).toNat =
        ((favClampPage page - 1) * favClampLimit limit).toNat +
          (favClampLimit limit).toNat := by
      have he : favClampPage page * favClampLimit limit =
          (favClampPage page - 1) * favClampLimit limit + favClampLimit limit := by
        ring
      rw [he, Int.toNat_add (mul_nonneg (by omega) (by omega)) (by omega)]
    simp only [get_user_favorites, getUserFavoritesPageFirst, hsum, List.take_drop]
  · rfl

/-- C5 (counterexample): over a store of exactly four published posts,
`page=1, limit=3` returns `hasNext = false` even though the total number
of matching published posts is 4, so `page*limit < total` holds for the
claim's meaning of `total` and a further non-empty page really exists
(page 2 is non-empty). -/
theorem listPublished_hasNext_cex :
    (get_blog_posts fourPublished 1 3 none none).hasNext = false
    ∧ (fourPublished.filter (fun p => p.status == PostStatus.published)).length = 4
    ∧ ((1:Int) * 3 < (4:Int))
    ∧ (get_blog_posts fourPublished 2 3 none none).posts ≠ [] := by
  decide

/-- C5 (amended): the route computes `hasNext = page*limit < total`, but
`total` is the heuristic `len(returned) if len(returned) < limit else
limit*page`, not the count of matching published posts; consequently, for
every request with `page ≥ 1` and `1 ≤ limit ≤ 50`, the returned
`hasNext` is always false and never signals a further page. -/
theorem listPublished_hasNext_always_false (store : PostStore) (page limit : Int)
    (author : Option String) (hp : 1 ≤ page) (hl1 : 1 ≤ limit) (hl2 : limit ≤ 50) :
    (get_blog_posts store page limit (some "published") author).hasNext = false := by
  have hpz : page ≠ 0 := by omega
  have hlz : limit ≠ 0 := by omega
  have hnp : ¬(page < 1) := by omega
  have hnl : ¬(limit < 1 ∨ limit > 50) := by omega
  simp only [get_blog_posts, if_neg hpz, if_neg hlz, get_posts, get_published_posts,
    if_neg hnp, if_neg hnl]
  simp only [String.reduceEq, reduceIte, Bool.false_eq_true, false_or, if_true]
  by_cases hcase :
      ((find_published store page limit author).length : Int) < limit
  · simp only [if_pos hcase, decide_eq_false_iff_not]
    have h2 : limit ≤ page * limit := le_mul_of_one_le_left (by omega) hp
    omega
  · simp only [if_neg hcase, decide_eq_false_iff_not]
    rw [mul_comm]
    omega

/-- Witness for C5's amended statement at a concrete store and request. -/
theorem listPublished_hasNext_always_false_witness :
    (get_blog_posts fourPublished 1 3 (some "published") none).hasNext = false :=
  listPublished_hasNext_always_false fourPublished 1 3 none (by decide) (by decide)
    (by decide)

/-- C8 (confirmed): over any store of exactly five published posts with
distinct ids and distinct `publishedAt` values, `findPublished(page=1,
limit=3)` and `findPublished(page=2, limit=3)` return lists with disjoint
id sets whose concatenation is a permutation of all five posts (so their
union is all of them) and is sorted by `publishedAt` descending — the
order is preserved across the page boundary. -/
theorem find_published_two_pages (store : PostStore)
    (h5 : store.length = 5)
    (hpub : ∀ p ∈ store, p.status = PostStatus.published)
    (hids : (store.map BlogPost.id).Nodup)
    (_hkeys : (store.map BlogPost.published_at).Nodup) :
    (∀ i ∈ (find_published store 1 3 none).map BlogPost.id,
      i ∉ (find_published store 2 3 none).map BlogPost.id)
    ∧ (find_published store 1 3 none ++ find_published store 2 3 none).Perm store
    ∧ List.Sorted pubGE (find_published store 1 3 none ++ find_published store 2 3 none) := by
  have hfilter : store.filter (fun p => p.status == PostStatus.published) = store :=
    List.filter_eq_self.mpr (fun p hp => by simp [hpub p hp])
  have hperm : (List.insertionSort pubGE store).Perm store :=
    List.perm_insertionSort pubGE store
  have hlen : (List.insertionSort pubGE store).length = 5 := by
    rw [hperm.length_eq, h5]
  have hp1 : find_published store 1 3 none = (List.insertionSort pubGE store).take 3 := by
    simp only [find_published, hfilter]
    norm_num
    rfl
  have hp2 : find_published store 2 3 none = (List.insertionSort pubGE store).drop 3 := by
    simp only [find_published, hfilter]
    norm_num
    refine List.take_of_length_le ?_
    simp [hlen]
  have happend : find_published store 1 3 none ++ find_published store 2 3 none =
      List.insertionSort pubGE store := by
    rw [hp1, hp2, List.take_append_drop]
  refine ⟨?_, ?_, ?_⟩
  · have hnodup : ((List.insertionSort pubGE store).map BlogPost.id).Nodup :=
      ((hperm.map BlogPost.id).nodup_iff).mpr hids
    rw [← happend, List.map_append, List.nodup_append] at hnodup
    exact hnodup.2.2
  · rw [happend]
    exact hperm
  · rw [happend]
    exact List.sorted_insertionSort pubGE store

/-- Witness for C8: five published posts with distinct ids and distinct
publication times, inserted in scrambled order. -/
theorem find_published_two_pages_witness :
    (∀ i ∈ (find_published fivePublished 1 3 none).map BlogPost.id,
      i ∉ (find_published fivePublished 2 3 none).map BlogPost.id)
    ∧ (find_published fivePublished 1 3 none ++
        find_published fivePublished 2 3 none).Perm fivePublished
    ∧ List.Sorted pubGE (find_published fivePublished 1 3 none ++
        find_published fivePublished 2 3 none) :=
  find_published_two_pages fivePublished (by decide) (by decide) (by decide) (by decide)

/-- C9 (confirmed): `findByPostId(postId, limit)` returns comments of that
post only, sorted ascending by `createdAt` (oldest first), of length
`min limit count`, and truncation keeps the oldest: any comment of the
post left out is no older than every returned one. -/
theorem find_by_post_id_props (store : CommentStore) (pid : String) (limit : Nat) :
    List.Sorted commLE (find_by_post_id store pid limit)
    ∧ (∀ c ∈ find_by_post_id store pid limit, c ∈ store ∧ c.post_id = pid)
    ∧ (find_by_post_id store pid limit).length =
        min limit (store.filter (fun c => c.post_id == pid)).length
    ∧ (∀ c ∈ find_by_post_id store pid limit, ∀ d ∈ store, d.post_id = pid →
        d ∉ find_by_post_id store pid limit → c.created_at ≤ d.created_at) := by
  have hsortedfull :
      List.Sorted commLE
        (List.insertionSort commLE (store.filter (fun c => c.post_id == pid))) :=
    List.sorted_insertionSort commLE _
  have hpermfull :
      (List.insertionSort commLE (store.filter (fun c => c.post_id == pid))).Perm
        (store.filter (fun c => c.post_id == pid)) :=
    List.perm_insertionSort commLE _
  refine ⟨?_, ?_, ?_, ?_⟩
  · exact hsortedfull.sublist (List.take_sublist _ _)
  · intro c hcmem
    have hcfull : c ∈ List.insertionSort commLE (store.filter (fun c => c.post_id == pid)) :=
      (List.take_sublist _ _).subset hcmem
    have hcflt := hpermfull.mem_iff.mp hcfull
    have := List.mem_filter.mp hcflt
    exact ⟨this.1, by simpa using this.2⟩
  · simp only [find_by_post_id, List.length_take, hpermfull.length_eq]
  · intro c hcmem d hd hdpid hdnot
    have hdfull : d ∈ List.insertionSort commLE (store.filter (fun c => c.post_id == pid)) :=
      hpermfull.mem_iff.mpr (List.mem_filter.mpr ⟨hd, by simp [hdpid]⟩)
    rw [← List.take_append_drop limit
      (List.insertionSort commLE (store.filter (fun c => c.post_id == pid)))] at hdfull hsortedfull
    have hddrop : d ∈ (List.insertionSort commLE
        (store.filter (fun c => c.post_id == pid))).drop limit := by
      rcases List.mem_append.mp hdfull with h | h
      · exact absurd h hdnot
      · exact h
    exact (List.pairwise_append.mp hsortedfull).2.2 c hcmem d hddrop

/-- Witness for C9: comments created at times 3, 1, 2 on post `"p"` with
`limit = 2`: the result is the two oldest, in ascending order, and the
omitted comment (created at 3) is no older than a returned one. -/
theorem find_by_post_id_props_witness :
    List.Sorted commLE (find_by_post_id commentsDemo "p" 2)
    ∧ (commentAt 1 ∈ commentsDemo ∧ (commentAt 1).post_id = "p")
    ∧ (find_by_post_id commentsDemo "p" 2).length =
        min 2 (commentsDemo.filter (fun c => c.post_id == "p")).length
    ∧ (commentAt 1).created_at ≤ (commentAt 3).created_at
    ∧ find_by_post_id commentsDemo "p" 2 = [commentAt 1, commentAt 2] := by
  have h := find_by_post_id_props commentsDemo "p" 2
  exact ⟨h.1, h.2.1 (commentAt 1) (by decide), h.2.2.1,
    h.2.2.2 (commentAt 1) (by decide) (commentAt 3) (by decide) (by decide) (by decide),
    by decide⟩
